import Mathlib

/-!
Verification of the review-and-publish pipeline of the noosphere repository
(`src/agents/agent_council.py`, `src/agents/publication_coordinator.py`,
`src/agents/security_monitor.py`) against its natural-language specification.

The Python code is shallowly embedded: pure functions become Lean functions,
the SQLite tables become explicit record lists with an autoincrement counter,
and the external text-generation call (`call_kimi`) is modelled by its result
value, which is either an error dictionary or a content string.  Python's
`json.loads` (used by `_get_agent_opinion` to decode a reviewer's answer) is
modelled by an executable JSON parser over the same value universe.
-/

/-- The universe of JSON values produced by `json.loads`.  Numbers keep their
lexeme (the code never inspects numeric values; it only checks with
`isinstance(..., bool)` whether the `approve` field is a boolean, and JSON
numbers never decode to Python booleans). -/
inductive JValue where
  | jnull : JValue
  | jbool (b : Bool) : JValue
  | jnum (lexeme : String) : JValue
  | jstr (s : String) : JValue
  | jarr (elems : List JValue) : JValue
  | jobj (fields : List (String × JValue)) : JValue

/-- The opening-brace character, kept out of literals. -/
def lbraceChar : Char := Char.ofNat 123

/-- The closing-brace character, kept out of literals. -/
def rbraceChar : Char := Char.ofNat 125

/-- JSON insignificant whitespace (RFC 8259, as accepted by `json.loads`). -/
def isJsonWs (c : Char) : Bool :=
  c = ' ' || c = '\t' || c = '\n' || c = '\r'

def skipWs (cs : List Char) : List Char :=
  cs.dropWhile isJsonWs

def hexDigitVal (c : Char) : Option Nat :=
  if 48 ≤ c.toNat ∧ c.toNat ≤ 57 then some (c.toNat - 48)
  else if 97 ≤ c.toNat ∧ c.toNat ≤ 102 then some (c.toNat - 87)
  else if 65 ≤ c.toNat ∧ c.toNat ≤ 70 then some (c.toNat - 55)
  else none

/-- Decode a JSON string body (the opening quote already consumed), handling
the escape sequences `json.loads` accepts and rejecting raw control
characters, as the strict decoder does. -/
def parseJString : Nat → List Char → List Char → Option (String × List Char)
  | 0, _, _ => none
  | fuel + 1, acc, cs =>
    match cs with
    | [] => none
    | c :: rest =>
      if c = '"' then some (String.mk acc.reverse, rest)
      else if c = '\\' then
        match rest with
        | [] => none
        | e :: rest2 =>
          if e = '"' then parseJString fuel ('"' :: acc) rest2
          else if e = '\\' then parseJString fuel ('\\' :: acc) rest2
          else if e = '/' then parseJString fuel ('/' :: acc) rest2
          else if e = 'b' then parseJString fuel (Char.ofNat 8 :: acc) rest2
          else if e = 'f' then parseJString fuel (Char.ofNat 12 :: acc) rest2
          else if e = 'n' then parseJString fuel ('\n' :: acc) rest2
          else if e = 'r' then parseJString fuel ('\r' :: acc) rest2
          else if e = 't' then parseJString fuel ('\t' :: acc) rest2
          else if e = 'u' then
            match rest2 with
            | a :: b :: c2 :: d :: rest3 =>
              match hexDigitVal a, hexDigitVal b, hexDigitVal c2, hexDigitVal d with
              | some ha, some hb, some hc, some hd =>
                parseJString fuel (Char.ofNat (((ha * 16 + hb) * 16 + hc) * 16 + hd) :: acc) rest3
              | _, _, _, _ => none
            | _ => none
          else none
      else if c.toNat < 32 then none
      else parseJString fuel (c :: acc) rest

/-- Integer part of a JSON number: `0`, or a nonzero digit followed by digits
(JSON forbids leading zeros). -/
def parseIntDigits : List Char → Option (List Char × List Char)
  | [] => none
  | c :: rest =>
    if c = '0' then some ([c], rest)
    else if c.isDigit then
      some (c :: rest.takeWhile Char.isDigit, rest.dropWhile Char.isDigit)
    else none

/-- Optional fractional part: empty, or `.` followed by at least one digit. -/
def parseFracDigits : List Char → Option (List Char × List Char)
  | [] => some ([], [])
  | c :: rest =>
    if c = '.' then
      match rest.takeWhile Char.isDigit, rest.dropWhile Char.isDigit with
      | [], _ => none
      | ds, rest2 => some ('.' :: ds, rest2)
    else some ([], c :: rest)

/-- Optional exponent part: empty, or `e`/`E`, optional sign, ≥ 1 digit. -/
def parseExpDigits : List Char → Option (List Char × List Char)
  | [] => some ([], [])
  | c :: rest =>
    if c = 'e' ∨ c = 'E' then
      let sgnRest : List Char × List Char :=
        match rest with
        | s :: r => if s = '+' ∨ s = '-' then ([s], r) else ([], rest)
        | [] => ([], [])
      match sgnRest.2.takeWhile Char.isDigit, sgnRest.2.dropWhile Char.isDigit with
      | [], _ => none
      | ds, rest2 => some (c :: (sgnRest.1 ++ ds), rest2)
    else some ([], c :: rest)

/-- A JSON number lexeme: optional minus, integer, fraction, exponent. -/
def parseNumberLex (cs : List Char) : Option (String × List Char) :=
  let signRest : List Char × List Char :=
    match cs with
    | c :: r => if c = '-' then (['-'], r) else ([], cs)
    | [] => ([], [])
  match parseIntDigits signRest.2 with
  | none => none
  | some (ip, rest1) =>
    match parseFracDigits rest1 with
    | none => none
    | some (fp, rest2) =>
      match parseExpDigits rest2 with
      | none => none
      | some (ep, rest3) => some (String.mk (signRest.1 ++ ip ++ fp ++ ep), rest3)

/-- Strip a literal character sequence from the head of the input. -/
def dropLit : List Char → List Char → Option (List Char)
  | [], cs => some cs
  | _ :: _, [] => none
  | l :: ls, c :: cs => if c = l then dropLit ls cs else none

mutual

/-- Executable model of `json.loads` on one JSON value.  Fuel strictly
decreases on every call, and `jsonLoads` supplies enough for any input. -/
def parseJValue : Nat → List Char → Option (JValue × List Char)
  | 0, _ => none
  | fuel + 1, cs =>
    match skipWs cs with
    | [] => none
    | c :: rest =>
      if c = '"' then
        match parseJString (rest.length + 1) [] rest with
        | some (s, rest2) => some (JValue.jstr s, rest2)
        | none => none
      else if c = lbraceChar then parseObjBody fuel rest
      else if c = '[' then parseArrBody fuel rest
      else if c = 't' then
        match dropLit ['r', 'u', 'e'] rest with
        | some rest2 => some (JValue.jbool true, rest2)
        | none => none
      else if c = 'f' then
        match dropLit ['a', 'l', 's', 'e'] rest with
        | some rest2 => some (JValue.jbool false, rest2)
        | none => none
      else if c = 'n' then
        match dropLit ['u', 'l', 'l'] rest with
        | some rest2 => some (JValue.jnull, rest2)
        | none => none
      else
        match parseNumberLex (c :: rest) with
        | some (lex, rest2) => some (JValue.jnum lex, rest2)
        | none => none

/-- Object body, the opening brace already consumed. -/
def parseObjBody : Nat → List Char → Option (JValue × List Char)
  | 0, _ => none
  | fuel + 1, cs =>
    match skipWs cs with
    | c :: rest =>
      if c = rbraceChar then some (JValue.jobj [], rest)
      else
        match parseMembers fuel (c :: rest) with
        | some (fields, rest2) => some (JValue.jobj fields, rest2)
        | none => none
    | [] => none

/-- One or more `"key": value` members, ending at the closing brace. -/
def parseMembers : Nat → List Char → Option (List (String × JValue) × List Char)
  | 0, _ => none
  | fuel + 1, cs =>
    match skipWs cs with
    | c :: rest =>
      if c = '"' then
        match parseJString (rest.length + 1) [] rest with
        | some (key, rest2) =>
          match skipWs rest2 with
          | ':' :: rest3 =>
            match parseJValue fuel rest3 with
            | some (v, rest4) =>
              match skipWs rest4 with
              | ',' :: rest5 =>
                match parseMembers fuel rest5 with
                | some (fields, rest6) => some ((key, v) :: fields, rest6)
                | none => none
              | d :: rest5 =>
                if d = rbraceChar then some ([(key, v)], rest5) else none
              | [] => none
            | none => none
          | _ => none
        | none => none
      else none
    | [] => none

/-- Array body, the opening bracket already consumed. -/
def parseArrBody : Nat → List Char → Option (JValue × List Char)
  | 0, _ => none
  | fuel + 1, cs =>
    match skipWs cs with
    | c :: rest =>
      if c = ']' then some (JValue.jarr [], rest)
      else
        match parseElems fuel (c :: rest) with
        | some (elems, rest2) => some (JValue.jarr elems, rest2)
        | none => none
    | [] => none

/-- One or more array elements, ending at the closing bracket. -/
def parseElems : Nat → List Char → Option (List JValue × List Char)
  | 0, _ => none
  | fuel + 1, cs =>
    match parseJValue fuel cs with
    | some (v, rest) =>
      match skipWs rest with
      | ',' :: rest2 =>
        match parseElems fuel rest2 with
        | some (elems, rest3) => some (v :: elems, rest3)
        | none => none
      | ']' :: rest2 => some ([v], rest2)
      | _ => none
    | none => none

end

/-- Model of Python `json.loads s`: the whole input must be one JSON value,
surrounded only by insignificant whitespace; `none` models the
`json.JSONDecodeError` the caller catches. -/
def jsonLoads (s : String) : Option JValue :=
  match parseJValue (4 * s.length + 8) s.data with
  | some (v, rest) => if (skipWs rest).isEmpty then some v else none
  | none => none

/-! ## Reviewer client (`agent_council.py`) -/

/-- `AgentRole` enum (agent_council.py:40-45), in declaration order — the
iteration order of `for role in AgentRole`. -/
inductive AgentRole where
  | project_manager
  | security_guard
  | sociologist
  | philosopher
  | editor
deriving DecidableEq

/-- The `.value` string of each enum member. -/
def AgentRole.value : AgentRole → String
  | .project_manager => "project_manager"
  | .security_guard => "security_guard"
  | .sociologist => "sociologist"
  | .philosopher => "philosopher"
  | .editor => "editor"

/-- The fixed five-role panel: `list(AgentRole)` in declaration order. -/
def panelRoles : List AgentRole :=
  [AgentRole.project_manager, AgentRole.security_guard, AgentRole.sociologist,
   AgentRole.philosopher, AgentRole.editor]

/-- Outcome of `call_kimi` (scripts/openrouter_client.py): a dict with an
`error` key on any transport failure / timeout / missing key, otherwise a
dict whose `content` key holds the response text. -/
inductive KimiResult where
  | err (msg : String)
  | ok (content : String)

/-- `AgentVote` dataclass (agent_council.py:48-54).  Its fields are exactly
`agent, approve, reasoning, concerns, suggestions`; the source has no
`parse_failed` field.  `reasoning`, `concerns` and `suggestions` hold the
decoded JSON payload; a non-string `reasoning` or non-string list element
would later make the f-string joins in `_generate_consensus` raise in Python,
so only the string-valued case is observable in a completed deliberation and
the fields are modelled at string type. -/
structure AgentVote where
  agent : AgentRole
  approve : Bool
  reasoning : String
  concerns : List String
  suggestions : List String

/-- Python `str.find(c)`: index of the first occurrence, `None` for -1. -/
def pyFind (cs : List Char) (c : Char) : Option Nat :=
  cs.findIdx? (· = c)

/-- Python `str.rfind(c)`: index of the last occurrence. -/
def pyRfind (cs : List Char) (c : Char) : Option Nat :=
  match cs.reverse.findIdx? (· = c) with
  | some i => some (cs.length - 1 - i)
  | none => none

/-- Lines 308-312 of `_get_agent_opinion`: `start = response_text.find("{")`,
`end = response_text.rfind("}") + 1`, and the slice `response_text[start:end]`
provided `start >= 0 and end > start`. -/
def extractJsonSlice (content : String) : Option String :=
  let cs := content.data
  match pyFind cs lbraceChar, pyRfind cs rbraceChar with
  | some s, some e => if s < e + 1 then some (String.mk ((cs.drop s).take (e + 1 - s))) else none
  | _, _ => none

/-- Python `str.lower()` (ASCII case folding), at the character-list level so
that the kernel can evaluate it. -/
def strLower (s : String) : String := String.mk (s.data.map Char.toLower)

/-- Python `str.upper()`. -/
def strUpper (s : String) : String := String.mk (s.data.map Char.toUpper)

/-- Python `s[:n]`: the first `n` characters. -/
def strTake (s : String) (n : Nat) : String := String.mk (s.data.take n)

/-- Dict lookup after `json.loads`: for duplicate keys the last wins. -/
def jlookup (fields : List (String × JValue)) (k : String) : Option JValue :=
  (fields.reverse.find? (fun p => p.1 = k)).map (·.2)

/-- `data.get("reasoning", "")`, at the observable string type. -/
def jstrOrEmpty : Option JValue → String
  | some (JValue.jstr s) => s
  | _ => ""

/-- `data.get(k, []) if isinstance(data.get(k), list) else []`, keeping the
(observable) string elements. -/
def jstrElems : Option JValue → List String
  | some (JValue.jarr xs) =>
    xs.filterMap (fun v => match v with | JValue.jstr s => some s | _ => none)
  | _ => []

/-- The brace-slice of the response body decoded by `json.loads`, when that
succeeds.  A successful decode of the slice is always a dict because the
slice starts at `"{"`; `none` covers both `start/end` failure and
`json.JSONDecodeError`, the two paths the source routes to its fallback. -/
def parsedObj (content : String) : Option (List (String × JValue)) :=
  match extractJsonSlice content with
  | some s =>
    match jsonLoads s with
    | some (JValue.jobj fields) => some fields
    | some _ => none
    | none => none
  | none => none

/-- The conservative fallback vote of `_get_agent_opinion`
(agent_council.py:331-337): reject, with the raw content truncated to 300
characters inside the diagnostic. -/
def parseFallbackVote (role : AgentRole) (content : String) : AgentVote :=
  { agent := role
    approve := false
    reasoning := "[PARSE ERROR] Could not parse agent response. Raw: " ++ strTake content 300 ++ "..."
    concerns := ["Response parsing failed - manual review recommended"]
    suggestions := [] }

/-- `AgentCouncil._get_agent_opinion` (agent_council.py:270-337).  The prompt
built from role, topic and content only feeds `call_kimi`, whose outcome is
the `res` argument, so the vote is a function of the role and that outcome. -/
def getAgentOpinion (role : AgentRole) (res : KimiResult) : AgentVote :=
  match res with
  | KimiResult.err e =>
    { agent := role
      approve := false
      reasoning := "Error: " ++ e
      concerns := ["API error"]
      suggestions := [] }
  | KimiResult.ok content =>
    match parsedObj content with
    | some fields =>
      match jlookup fields "approve" with
      | some (JValue.jbool b) =>
        { agent := role
          approve := b
          reasoning := jstrOrEmpty (jlookup fields "reasoning")
          concerns := jstrElems (jlookup fields "concerns")
          suggestions := jstrElems (jlookup fields "suggestions") }
      | _ => parseFallbackVote role content
    | none => parseFallbackVote role content

/-- The `approve` field of the decoded response, when the response body
contains a JSON object whose `approve` field is a boolean. -/
def approveBool (res : KimiResult) : Option Bool :=
  match res with
  | KimiResult.err _ => none
  | KimiResult.ok content =>
    match parsedObj content with
    | some fields =>
      match jlookup fields "approve" with
      | some (JValue.jbool b) => some b
      | _ => none
    | none => none

/-- A generation outcome is malformed when the call errored or the response
lacks a JSON object with a boolean `approve` field. -/
def responseMalformed (res : KimiResult) : Bool :=
  (approveBool res).isNone

/-! ## Deliberation engine and decision aggregation -/

/-- `CouncilDecision` dataclass (agent_council.py:57-63). -/
structure CouncilDecision where
  topic : String
  votes : List AgentVote
  final_decision : String
  consensus_summary : String
  timestamp : String

/-- `list(set(xs))[:5]` in `_generate_consensus`.  CPython's set iteration
order for strings is unspecified; the model deduplicates keeping the first
occurrence.  No claim depends on the order inside the summary. -/
def dedupTakeFive (xs : List String) : List String :=
  (xs.foldl (fun acc x => if acc.contains x then acc else acc ++ [x]) []).take 5

/-- `AgentCouncil._generate_consensus` (agent_council.py:524-551). -/
def generateConsensus (votes : List AgentVote) (decision : String) : String :=
  let concerns := dedupTakeFive (votes.flatMap (fun v => v.concerns))
  let suggestions := dedupTakeFive (votes.flatMap (fun v => v.suggestions))
  let parts1 := ["Decision: " ++ strUpper decision]
  let parts2 := if concerns.isEmpty then parts1 else
    parts1 ++ ["Key concerns: " ++ String.intercalate "; " concerns]
  let parts3 := if suggestions.isEmpty then parts2 else
    parts2 ++ ["Suggestions: " ++ String.intercalate "; " suggestions]
  let parts4 := parts3 ++ votes.map (fun v =>
    v.agent.value ++ ": " ++ (if v.approve then "approved" else "rejected"))
  String.intercalate "\n" parts4

/-- `AgentCouncil.deliberate` (agent_council.py:339-389), decision part.  The
environment `env` gives each reviewer's `call_kimi` outcome; the votes are
collected once per role in panel order.  Python compares
`approvals > total / 2` with float division; over the integers involved this
is exactly `2 * approvals > total`.  The source also persists the result via
`_save_deliberation` before returning, modelled by `deliberateSave`. -/
def deliberate (env : AgentRole → KimiResult) (now : String)
    (topic _content : String) (require_unanimous : Bool) : CouncilDecision :=
  let votes := panelRoles.map (fun r => getAgentOpinion r (env r))
  let approvals := votes.countP (fun v => v.approve)
  let total := votes.length
  let base :=
    if require_unanimous then (if approvals = total then "publish" else "revise")
    else (if 2 * approvals > total then "publish" else "revise")
  let security_vote := votes.find? (fun v => v.agent = AgentRole.security_guard)
  let decision :=
    match security_vote with
    | some v => if v.approve then base else "revise"
    | none => base
  { topic := topic
    votes := votes
    final_decision := decision
    consensus_summary := generateConsensus votes decision
    timestamp := now }

/-! ## Audit store (`council_deliberations` / `agent_votes` tables) -/

/-- One row of `council_deliberations` (agent_council.py:240-251).
`votes_json` is stored as `json.dumps` text in SQLite; it is modelled
structurally, as the serialized votes themselves.  `created_at` is the
`CURRENT_TIMESTAMP` wall clock at insert time (second granularity). -/
structure DelibRow where
  id : Nat
  topic : String
  content : String
  votesJson : List AgentVote
  finalDecision : String
  consensusSummary : String
  createdAt : Nat

/-- One row of `agent_votes` (agent_council.py:253-265), the per-vote insert
of `_save_deliberation`. -/
structure VoteRow where
  deliberationId : Nat
  agentRole : String
  approve : Nat
  reasoning : String
  concernsJson : List String
  suggestionsJson : List String

/-- The council database: both tables plus the `AUTOINCREMENT` counter that
assigns `council_deliberations.id`. -/
structure CouncilDB where
  delibs : List DelibRow
  voteRows : List VoteRow
  nextDelibId : Nat

def emptyCouncilDB : CouncilDB :=
  { delibs := [], voteRows := [], nextDelibId := 1 }

/-- `AgentCouncil._save_deliberation` (agent_council.py:477-522): insert the
deliberation row (the autoincrement key is `cursor.lastrowid`, returned here),
then one `agent_votes` row per vote.  The source computes `cursor.lastrowid`
but only logs it; the returned pair exposes it for the analysis. -/
def saveDeliberation (db : CouncilDB) (tstamp : Nat) (topic content : String)
    (decision : CouncilDecision) (autoApproved : Bool) : CouncilDB × Nat :=
  let consensus :=
    if autoApproved then "[AUTO] " ++ decision.consensus_summary
    else decision.consensus_summary
  let rowId := db.nextDelibId
  let row : DelibRow :=
    { id := rowId, topic := topic, content := content,
      votesJson := decision.votes, finalDecision := decision.final_decision,
      consensusSummary := consensus, createdAt := tstamp }
  let newVoteRows := decision.votes.map (fun v =>
    { deliberationId := rowId, agentRole := v.agent.value,
      approve := if v.approve then 1 else 0, reasoning := v.reasoning,
      concernsJson := v.concerns, suggestionsJson := v.suggestions : VoteRow })
  ({ delibs := db.delibs ++ [row], voteRows := db.voteRows ++ newVoteRows,
     nextDelibId := rowId + 1 }, rowId)

/-- `AgentCouncil._get_last_deliberation_id` (agent_council.py:401-413):
`SELECT id FROM council_deliberations WHERE topic = ? ORDER BY created_at
DESC LIMIT 1`.  Among rows of equal `created_at` SQLite's order is
unspecified; the model keeps the first-scanned row, and the analyses below
only use strictly increasing timestamps, where the result is the unique row
with maximal `created_at`. -/
def getLastDeliberationId (db : CouncilDB) (topic : String) : Option Nat :=
  ((db.delibs.filter (fun r => r.topic = topic)).foldl
    (fun best r =>
      match best with
      | none => some r
      | some b => if r.createdAt > b.createdAt then some r else best)
    none).map (fun r => r.id)

/-- `deliberate` followed by its `_save_deliberation` call — one full
`AgentCouncil.deliberate` invocation including persistence. -/
def deliberateSave (env : AgentRole → KimiResult) (now : String) (tstamp : Nat)
    (db : CouncilDB) (topic content : String) (require_unanimous : Bool) :
    CouncilDecision × CouncilDB × Nat :=
  let d := deliberate env now topic content require_unanimous
  let saved := saveDeliberation db tstamp topic content d false
  (d, saved.1, saved.2)

/-- `AgentCouncil.deliberate_with_id` (agent_council.py:391-399): run
`deliberate` (which persists the row), then recover "the ID of the just-saved
deliberation" with `_get_last_deliberation_id(topic)`.  The row id assigned
by the insert itself (`cursor.lastrowid`) is discarded; the returned
identifier comes from the separate most-recent-row query. -/
def deliberateWithId (env : AgentRole → KimiResult) (now : String)
    (tstamp : Nat) (db : CouncilDB) (topic content : String)
    (require_unanimous : Bool) : CouncilDecision × Option Nat × CouncilDB :=
  let r := deliberateSave env now tstamp db topic content require_unanimous
  (r.1, getLastDeliberationId r.2.1 topic, r.2.1)

/-- `AgentCouncil.quick_security_check` (agent_council.py:553-560): a single
security-guard opinion; returns `(vote.approve, vote.reasoning)`. -/
def quickSecurityCheck (res : KimiResult) : Bool × String :=
  let vote := getAgentOpinion AgentRole.security_guard res
  (vote.approve, vote.reasoning)

/-! ## Screening filter (`screen_finding`, agent_council.py:99-165) -/

/-- `CONTROVERSIAL_KEYWORDS` (agent_council.py:76-89), in source order. -/
def CONTROVERSIAL_KEYWORDS : List String :=
  ["first", "unprecedented", "proof", "evidence", "discovered",
   "breakthrough", "revolutionary", "never before",
   "attack", "injection", "malicious", "hack", "exploit",
   "private", "personal", "identity", "operator", "human behind",
   "conspiracy", "coordinated", "manipulation", "propaganda",
   "sockpuppet", "astroturf", "fake", "bot army",
   "threat", "danger", "warning", "urgent", "critical",
   "rogue", "hostile", "enemy", "war"]

/-- `ROUTINE_KEYWORDS` (agent_council.py:92-96). -/
def ROUTINE_KEYWORDS : List String :=
  ["statistics", "metrics", "count", "average", "trend",
   "increased", "decreased", "stable", "pattern observed",
   "engagement", "activity", "posts", "comments"]

/-- `ScreeningResult` dataclass (agent_council.py:66-73). -/
structure ScreeningResult where
  needs_council : Bool
  reason : String
  auto_decision : String
  risk_flags : List String

/-- Whether `needle` occurs at the head of `cs`. -/
def listStartsWith (needle cs : List Char) : Bool :=
  (dropLit needle cs).isSome

/-- Whether `needle` occurs anywhere in `cs`. -/
def listHasInfix (needle : List Char) : List Char → Bool
  | [] => listStartsWith needle []
  | c :: rest => listStartsWith needle (c :: rest) || listHasInfix needle rest

/-- Python `needle in hay` on strings: substring containment. -/
def strContains (hay needle : String) : Bool :=
  listHasInfix needle.data hay.data

/-- `\w` of Python `re` (ASCII part: letters, digits, underscore; the
screened findings are ASCII text). -/
def isWordChar (c : Char) : Bool :=
  c.isAlphanum || c = '_'

/-- `\s` of Python `re` (ASCII part: space, tab, newline, return, vertical
tab, form feed). -/
def isPyWs (c : Char) : Bool :=
  c = ' ' || c = '\t' || c = '\n' || c = '\r' || c = Char.ofNat 11 || c = Char.ofNat 12

def isUpperAZ (c : Char) : Bool := 65 ≤ c.toNat && c.toNat ≤ 90

def isLowerAZ (c : Char) : Bool := 97 ≤ c.toNat && c.toNat ≤ 122

/-- Try a list of literal alternatives at the head of the input, left to
right, returning the length of the first that matches — `re` alternation of
plain words. -/
def matchAltLits (lits : List (List Char)) (cs : List Char) : Option Nat :=
  match lits with
  | [] => none
  | l :: ls => if (dropLit l cs).isSome then some l.length else matchAltLits ls cs

/-- First alternative of the agent-mention pattern, `@\w+`: `@` followed by a
maximal nonempty word-character run (greedy `+` with nothing after it). -/
def matchAtMention : List Char → Option Nat
  | c :: rest =>
    if c = '@' then
      let n := (rest.takeWhile isWordChar).length
      if n = 0 then none else some (n + 1)
    else none
  | [] => none

/-- Second alternative, `"[A-Z][a-z]+\w*"\s+(?:said|wrote|posted|claimed)`.
Whatever split backtracking chooses, `[a-z]+\w*` ends exactly at the end of
the maximal word-character run after the capital (a quote is not a word
character), and `\s+` must be the maximal whitespace run (the verbs do not
start with whitespace), so the match is deterministic. -/
def matchQuotedName : List Char → Option Nat
  | q :: u :: l :: rest =>
    if q = '"' ∧ isUpperAZ u ∧ isLowerAZ l then
      let run := (rest.takeWhile isWordChar).length
      match rest.drop run with
      | q2 :: after =>
        if q2 = '"' then
          let ws := (after.takeWhile isPyWs).length
          if ws = 0 then none
          else
            match matchAltLits
                ["said".data, "wrote".data, "posted".data, "claimed".data]
                (after.drop ws) with
            | some k => some (3 + run + 1 + ws + k)
            | none => none
        else none
      | [] => none
    else none
  | _ => none

/-- The full agent-mention pattern
`@\w+|"[A-Z][a-z]+\w*"\s+(?:said|wrote|posted|claimed)`
(agent_council.py:119): alternation tries the `@` form first. -/
def matchAgentMention (cs : List Char) : Option Nat :=
  match matchAtMention cs with
  | some n => some n
  | none => matchQuotedName cs

/-- The quantified-claim pattern `\d+\s+(?:attack|injection|attempt|violation|threat)`
(agent_council.py:124), applied to the lower-cased content.  `\d+` and `\s+`
are forced maximal: shortening either leaves a digit (resp. a whitespace
character) where the next pattern element cannot match. -/
def matchQuantClaim : List Char → Option Nat
  | c :: rest =>
    if c.isDigit then
      let ds := (rest.takeWhile Char.isDigit).length
      let after := rest.drop ds
      let ws := (after.takeWhile isPyWs).length
      if ws = 0 then none
      else
        match matchAltLits
            ["attack".data, "injection".data, "attempt".data,
             "violation".data, "threat".data]
            (after.drop ws) with
        | some k => some (1 + ds + ws + k)
        | none => none
    else none
  | [] => none

/-- `re.findall` counting: scan left to right; a match at the current
position consumes its (always positive) length, otherwise advance one
character.  Fuel bounds the scan by the input length. -/
def findallCount (step : List Char → Option Nat) : Nat → List Char → Nat
  | 0, _ => 0
  | _ + 1, [] => 0
  | fuel + 1, c :: rest =>
    match step (c :: rest) with
    | some n => 1 + findallCount step fuel ((c :: rest).drop n)
    | none => findallCount step fuel rest

/-- `len(re.findall(r'@\w+|"[A-Z][a-z]+\w*"\s+(?:said|wrote|posted|claimed)', content))`. -/
def agentMentionCount (content : String) : Nat :=
  findallCount matchAgentMention content.data.length content.data

/-- `len(re.findall(r'\d+\s+(?:attack|injection|attempt|violation|threat)', content_lower))`. -/
def quantClaimCount (contentLower : String) : Nat :=
  findallCount matchQuantClaim contentLower.data.length contentLower.data

/-- The `risk_flags` list accumulated by `screen_finding`
(agent_council.py:110-130), in accumulation order: controversial keywords,
then the agent-mention flag (strictly more than two matches), then the
quantified-claim flag (at least one match), then the long-content flag. -/
def riskFlagsOf (topic content : String) : List String :=
  let combined := strLower topic ++ " " ++ strLower content
  let kwFlags := (CONTROVERSIAL_KEYWORDS.filter (fun k => strContains combined k)).map
    (fun k => "keyword:" ++ k)
  let mentions := agentMentionCount content
  let flags2 :=
    if mentions > 2 then kwFlags ++ ["agent_mentions:" ++ toString mentions] else kwFlags
  let qc := quantClaimCount (strLower content)
  let flags3 :=
    if qc > 0 then flags2 ++ ["quantified_claims:" ++ toString qc] else flags2
  if content.length > 1000 then flags3 ++ ["long_content"] else flags3

/-- `sum(1 for kw in ROUTINE_KEYWORDS if kw in combined)`. -/
def routineCount (topic content : String) : Nat :=
  let combined := strLower topic ++ " " ++ strLower content
  (ROUTINE_KEYWORDS.filter (fun k => strContains combined k)).length

/-- `screen_finding` (agent_council.py:99-165): the decision table over the
accumulated flags.  The branches are evaluated in source order: no flags and
two routine keywords auto-approves; three or more flags, then one or more
flags, need review; otherwise auto-approve. -/
def screenFinding (topic content : String) : ScreeningResult :=
  let risk_flags := riskFlagsOf topic content
  if risk_flags.length = 0 ∧ routineCount topic content ≥ 2 then
    { needs_council := false
      reason := "Routine metrics/statistics - auto-approved"
      auto_decision := "auto_approve"
      risk_flags := [] }
  else if risk_flags.length ≥ 3 then
    { needs_council := true
      reason := "Multiple risk flags detected: " ++ String.intercalate ", " (risk_flags.take 3)
      auto_decision := "needs_review"
      risk_flags := risk_flags }
  else if risk_flags.length ≥ 1 then
    { needs_council := true
      reason := "Potential sensitive content: " ++ risk_flags.headD ""
      auto_decision := "needs_review"
      risk_flags := risk_flags }
  else
    { needs_council := false
      reason := "Standard observation - auto-approved"
      auto_decision := "auto_approve"
      risk_flags := [] }

/-! ## Publication coordinator (`publication_coordinator.py`) -/

/-- One row of the `publications` table (publication_coordinator.py:80-94).
`publish_targets` is a JSON-text column written by `json.dumps(targets)` (or
NULL), modelled structurally as the serialized list; `none` is NULL. -/
structure Publication where
  id : Nat
  title : String
  content : String
  category : String
  status : String
  deliberationId : Option Nat
  publishTargets : Option (List String)

/-- The publications side of the database, with its audit log actions. -/
structure PubDB where
  pubs : List Publication
  log : List (Nat × String)

/-- What a `publish()` call gives back to its caller: a returned dict — either
an error object or a per-target result map — or a propagated exception. -/
inductive PublishOutcome where
  | raised (exc : String)
  | errorResult (msg : String) (details : Option String)
  | results (perTarget : List (String × String))

/-- The exception message of the attribute access
`self.security.council` (publication_coordinator.py:239). -/
def securityCouncilAttrError : String :=
  "AttributeError: \x27SecurityMonitor\x27 object has no attribute \x27council\x27"

/-- `PublicationCoordinator.publish` (publication_coordinator.py:218-276).
The last component lists the targets to which a delivery was attempted.

The row fetch (`WHERE id = ? AND status = ?` with status `approved`) either
misses — returning the not-approved error dict — or hits, after which the
source executes `self.security.council.quick_security_check(content)`
(line 239).  `SecurityMonitor.__init__` (security_monitor.py:60-71) assigns
`db_path`, `alerts` and the compiled `injection_patterns` and nothing in the
codebase ever gives a `SecurityMonitor` a `council` attribute, so this
attribute access raises `AttributeError` before the safety check, the
delivery loop (lines 247-258) and the status update (lines 261-270) can run;
the exception propagates to the caller and the row keeps its `approved`
status with no delivery attempted. -/
def publish (db : PubDB) (pubId : Nat) : PublishOutcome × PubDB × List String :=
  match db.pubs.find? (fun p => p.id == pubId && p.status == "approved") with
  | none =>
    (PublishOutcome.errorResult
      ("Publication #" ++ toString pubId ++ " not approved or not found") none, db, [])
  | some _ => (PublishOutcome.raised securityCouncilAttrError, db, [])

/-! ## Atomic website write (`_publish_to_website`,
publication_coordinator.py:278-322) -/

mutual

/-- Serialization of a decoded JSON value back to text, for the discoveries
document.  (`json.dump(..., ensure_ascii=False, indent=2)` pretty-prints; the
claims under study concern which full document becomes visible, not its
whitespace, so the model serializes compactly.) -/
def jdump : JValue → String
  | JValue.jnull => "null"
  | JValue.jbool true => "true"
  | JValue.jbool false => "false"
  | JValue.jnum lex => lex
  | JValue.jstr s => "\"" ++ jsonEscape s ++ "\""
  | JValue.jarr xs => "[" ++ String.intercalate ", " (jdumpList xs) ++ "]"
  | JValue.jobj fields =>
    String.singleton lbraceChar ++ String.intercalate ", " (jdumpFields fields) ++
      String.singleton rbraceChar

def jdumpList : List JValue → List String
  | [] => []
  | v :: vs => jdump v :: jdumpList vs

def jdumpFields : List (String × JValue) → List String
  | [] => []
  | (k, v) :: fs => ("\"" ++ jsonEscape k ++ "\": " ++ jdump v) :: jdumpFields fs

def jsonEscape (s : String) : String :=
  String.join (s.data.map (fun c =>
    if c = '"' then "\\\""
    else if c = '\\' then "\\\\"
    else if c = '\n' then "\\n"
    else if c = '\t' then "\\t"
    else if c = '\r' then "\\r"
    else String.singleton c))

end

/-- The `new_discovery` dict built by `_publish_to_website`
(publication_coordinator.py:290-302). -/
def newDiscoveryEntry (pubId : Nat) (date title content category : String) : JValue :=
  JValue.jobj
    [("id", JValue.jstr ("pub-" ++ toString pubId)),
     ("date", JValue.jstr date),
     ("title", JValue.jstr title),
     ("subtitle", JValue.jstr
       (if content.length > 100 then strTake content 100 ++ "..." else content)),
     ("finding", JValue.jstr (strTake content 500)),
     ("quote", JValue.jstr ""),
     ("quote_author", JValue.jstr ""),
     ("significance", JValue.jstr "MEDIUM"),
     ("tags", JValue.jstr category),
     ("full_analysis", JValue.jstr content),
     ("implications", JValue.jstr "")]

/-- The full post-write document text: the new entry inserted at index 0 of
the existing discoveries list, serialized (lines 304-313). -/
def websiteNewContents (pubId : Nat) (date title content category : String)
    (oldEntries : List JValue) : String :=
  jdump (JValue.jarr (newDiscoveryEntry pubId date title content category :: oldEntries))

/-- The discoveries file area: the visible document (`discoveries.json`,
`none` when absent) and the `mkstemp` temporary in the same directory. -/
structure SiteFS where
  doc : Option String
  temp : Option String

/-- The primitive filesystem effects of the write path of
`_publish_to_website`: `tempfile.mkstemp` in the document's directory, a
portion of the serialized text reaching the temporary file, and the final
same-filesystem `shutil.move` rename. -/
inductive WriteStep where
  | createTemp
  | writeChunk (s : String)
  | renameTempToDoc

def applyWriteStep (fs : SiteFS) : WriteStep → SiteFS
  | WriteStep.createTemp => { fs with temp := some "" }
  | WriteStep.writeChunk s => { fs with temp := fs.temp.map (fun t => t ++ s) }
  | WriteStep.renameTempToDoc =>
    match fs.temp with
    | some t => { doc := some t, temp := none }
    | none => fs

def runWriteSteps (fs : SiteFS) (steps : List WriteStep) : SiteFS :=
  steps.foldl applyWriteStep fs

/-- The step sequence of `_publish_to_website` (lines 307-315): create the
temporary file, stream the new contents into it in some chunk decomposition,
then rename it over the document.  The kernel writes a file in
implementation-chosen chunks, so the decomposition is arbitrary. -/
def websiteWriteSteps (chunks : List String) : List WriteStep :=
  WriteStep.createTemp :: (chunks.map WriteStep.writeChunk ++ [WriteStep.renameTempToDoc])

/-- The exception path of `_publish_to_website` (lines 316-320): after the
temporary was created and some chunks were written, the failing write raises;
the handler unlinks the temporary and re-raises, so the rename never runs. -/
def websiteWriteFailCleanup (fs0 : SiteFS) (written : List String) : SiteFS :=
  let fs1 := runWriteSteps fs0 (WriteStep.createTemp :: written.map WriteStep.writeChunk)
  { fs1 with temp := none }

/-- Concatenation of the chunk decomposition of a written file. -/
def concatAll : List String → String
  | [] => ""
  | s :: rest => s ++ concatAll rest

/-! ## Concrete fixtures used by the witness theorems -/

/-- Every reviewer call times out / errors. -/
def envAllErr : AgentRole → KimiResult := fun _ => KimiResult.err "timeout"

/-- A well-formed approving response body. -/
def okApprove : KimiResult := KimiResult.ok "\x7b\"approve\": true\x7d"

/-- A well-formed rejecting response body. -/
def okReject : KimiResult := KimiResult.ok "\x7b\"approve\": false\x7d"

/-- Four reviewers approve; the security guard rejects. -/
def envSecurityRejects : AgentRole → KimiResult :=
  fun r => if r = AgentRole.security_guard then okReject else okApprove

/-- Only the project manager and the security guard respond (approving); the
other three calls fail. -/
def envTwoApprove : AgentRole → KimiResult :=
  fun r =>
    if r = AgentRole.security_guard ∨ r = AgentRole.project_manager then okApprove
    else KimiResult.err "timeout"


/-! ## Helper lemmas and claims C1, C10 -/

theorem getAgentOpinion_agent (role : AgentRole) (res : KimiResult) :
    (getAgentOpinion role res).agent = role := by
  cases res with
  | err e => rfl
  | ok content =>
    simp only [getAgentOpinion]
    cases hp : parsedObj content with
    | none => simp [parseFallbackVote]
    | some fields =>
      cases hl : jlookup fields "approve" with
      | none => simp [hl, parseFallbackVote]
      | some v => cases v <;> simp [hl, parseFallbackVote]

theorem opinion_malformed_reject (role : AgentRole) (res : KimiResult)
    (h : responseMalformed res = true) :
    (getAgentOpinion role res).approve = false ∧
    ((∃ e, res = KimiResult.err e ∧
        getAgentOpinion role res =
          { agent := role, approve := false, reasoning := "Error: " ++ e,
            concerns := ["API error"], suggestions := [] }) ∨
     (∃ c, res = KimiResult.ok c ∧
        getAgentOpinion role res = parseFallbackVote role c)) := by
  cases res with
  | err e => exact ⟨rfl, Or.inl ⟨e, rfl, rfl⟩⟩
  | ok content =>
    cases hp : parsedObj content with
    | none =>
      refine ⟨?_, Or.inr ⟨content, rfl, ?_⟩⟩ <;>
        simp [getAgentOpinion, hp, parseFallbackVote]
    | some fields =>
      cases hl : jlookup fields "approve" with
      | none =>
        refine ⟨?_, Or.inr ⟨content, rfl, ?_⟩⟩ <;>
          simp [getAgentOpinion, hp, hl, parseFallbackVote]
      | some v =>
        cases v with
        | jbool b =>
          exfalso
          simp [responseMalformed, approveBool, hp, hl] at h
        | jnull =>
          refine ⟨?_, Or.inr ⟨content, rfl, ?_⟩⟩ <;>
            simp [getAgentOpinion, hp, hl, parseFallbackVote]
        | jnum lex =>
          refine ⟨?_, Or.inr ⟨content, rfl, ?_⟩⟩ <;>
            simp [getAgentOpinion, hp, hl, parseFallbackVote]
        | jstr s =>
          refine ⟨?_, Or.inr ⟨content, rfl, ?_⟩⟩ <;>
            simp [getAgentOpinion, hp, hl, parseFallbackVote]
        | jarr xs =>
          refine ⟨?_, Or.inr ⟨content, rfl, ?_⟩⟩ <;>
            simp [getAgentOpinion, hp, hl, parseFallbackVote]
        | jobj fs =>
          refine ⟨?_, Or.inr ⟨content, rfl, ?_⟩⟩ <;>
            simp [getAgentOpinion, hp, hl, parseFallbackVote]

theorem opinion_approve_true (role : AgentRole) (res : KimiResult)
    (h : (getAgentOpinion role res).approve = true) :
    approveBool res = some true := by
  cases res with
  | err e => simp [getAgentOpinion] at h
  | ok content =>
    cases hp : parsedObj content with
    | none => simp [getAgentOpinion, hp, parseFallbackVote] at h
    | some fields =>
      cases hl : jlookup fields "approve" with
      | none => simp [getAgentOpinion, hp, hl, parseFallbackVote] at h
      | some v =>
        cases v with
        | jbool b =>
          simp [getAgentOpinion, hp, hl] at h
          simp [approveBool, hp, hl, h]
        | jnull => simp [getAgentOpinion, hp, hl, parseFallbackVote] at h
        | jnum lex => simp [getAgentOpinion, hp, hl, parseFallbackVote] at h
        | jstr s => simp [getAgentOpinion, hp, hl, parseFallbackVote] at h
        | jarr xs => simp [getAgentOpinion, hp, hl, parseFallbackVote] at h
        | jobj fs => simp [getAgentOpinion, hp, hl, parseFallbackVote] at h

/-- C1 (corrected, amended form).  For every reviewer role, whenever the
generation call fails or its response lacks a JSON object with a boolean
`approve` field, `_get_agent_opinion` returns a vote with `approve = false`
whose reasoning and concerns record the failure — the transport-error vote or
the parse-fallback vote (whose diagnostic truncates the raw content to 300
characters) — and it never returns `approve = true` unless a well-formed
response decoded `approve` to the boolean `true`.  (The source `AgentVote`
has no `parse_failed` field; the failure marking lives in
`reasoning`/`concerns`.) -/
theorem c1_reviewer_conservative_default (role : AgentRole) (res : KimiResult) :
    (responseMalformed res = true →
      (getAgentOpinion role res).approve = false ∧
      ((∃ e, res = KimiResult.err e ∧
          getAgentOpinion role res =
            { agent := role, approve := false, reasoning := "Error: " ++ e,
              concerns := ["API error"], suggestions := [] }) ∨
       (∃ c, res = KimiResult.ok c ∧
          getAgentOpinion role res = parseFallbackVote role c))) ∧
    ((getAgentOpinion role res).approve = true → approveBool res = some true) :=
  ⟨fun h => opinion_malformed_reject role res h,
   fun h => opinion_approve_true role res h⟩

/-- Witness for C1: a prose-only response body is malformed and yields a
rejecting vote. -/
theorem c1_reviewer_conservative_default_witness :
    responseMalformed (KimiResult.ok "the model replied with prose only") = true ∧
    (getAgentOpinion AgentRole.editor
        (KimiResult.ok "the model replied with prose only")).approve = false :=
  ⟨by decide,
   ((c1_reviewer_conservative_default AgentRole.editor
      (KimiResult.ok "the model replied with prose only")).1 (by decide)).1⟩

set_option maxRecDepth 8192 in
/-- C1 counterexample to the claim as stated: the claim requires a
*truncated* diagnostic in `reasoning` (and `parse_failed = true`).  The
parse-fallback path caps the diagnostic at 51 + 300 + 3 = 354 characters, but
on the transport-error path the full error text is embedded untruncated: a
500-character error produces a 507-character `reasoning` — and the returned
`AgentVote` (agent_council.py:48-54) has no `parse_failed` field at all. -/
theorem c1_untruncated_error_diagnostic :
    (getAgentOpinion AgentRole.security_guard
        (KimiResult.err (String.mk (List.replicate 500 'x')))).reasoning =
      "Error: " ++ String.mk (List.replicate 500 'x') ∧
    354 < (getAgentOpinion AgentRole.security_guard
        (KimiResult.err (String.mk (List.replicate 500 'x')))).reasoning.length :=
  ⟨rfl, by decide⟩

/-- C10 (confirmed).  `quick_security_check` inherits the conservative
default of `_get_agent_opinion`: whenever the generation call errors or the
response lacks a boolean `approve` field it returns `approved = false`
together with the diagnostic reason of the underlying vote, and it returns
`approved = true` only when a well-formed response explicitly decoded
`approve` to the boolean `true`. -/
theorem c10_quick_check_conservative (res : KimiResult) :
    (responseMalformed res = true →
      (quickSecurityCheck res).1 = false ∧
      ((∃ e, res = KimiResult.err e ∧ (quickSecurityCheck res).2 = "Error: " ++ e) ∨
       (∃ c, res = KimiResult.ok c ∧
          (quickSecurityCheck res).2 = (parseFallbackVote AgentRole.security_guard c).reasoning))) ∧
    ((quickSecurityCheck res).1 = true → approveBool res = some true) := by
  constructor
  · intro h
    obtain ⟨h1, h2⟩ := opinion_malformed_reject AgentRole.security_guard res h
    refine ⟨h1, ?_⟩
    rcases h2 with ⟨e, he, hv⟩ | ⟨c, hc, hv⟩
    · exact Or.inl ⟨e, he, by simp [quickSecurityCheck, hv]⟩
    · exact Or.inr ⟨c, hc, by simp [quickSecurityCheck, hv]⟩
  · intro h
    exact opinion_approve_true AgentRole.security_guard res h

/-- Witness for C10: a timed-out call yields a rejecting check with its
diagnostic reason. -/
theorem c10_quick_check_conservative_witness :
    (quickSecurityCheck (KimiResult.err "Request timeout (120s)")).1 = false ∧
    (quickSecurityCheck (KimiResult.err "Request timeout (120s)")).2 =
      "Error: Request timeout (120s)" :=
  ⟨((c10_quick_check_conservative (KimiResult.err "Request timeout (120s)")).1 (by decide)).1, rfl⟩

/-! ## Claims C4, C5, C7: decision aggregation -/

/-- The vote set of a deliberation is the panel map over the environment. -/
theorem deliberate_votes (env : AgentRole → KimiResult) (now topic content : String)
    (ru : Bool) :
    (deliberate env now topic content ru).votes =
      panelRoles.map (fun r => getAgentOpinion r (env r)) := rfl

/-- The security-guard lookup of `deliberate` finds exactly the security
guard vote among the five collected votes. -/
theorem find_security_vote (env : AgentRole → KimiResult) :
    ((panelRoles.map (fun r => getAgentOpinion r (env r))).find?
        (fun v => v.agent = AgentRole.security_guard)) =
      some (getAgentOpinion AgentRole.security_guard (env AgentRole.security_guard)) := by
  simp [panelRoles, List.find?, getAgentOpinion_agent]

/-- Closed form of the final decision of `deliberate`: the base counting rule
(unanimity, or strict majority `approvals > total / 2`, i.e.
`2 * approvals > 5`), overridden to `revise` whenever the security guard vote
rejects. -/
theorem deliberate_decision_formula (env : AgentRole → KimiResult)
    (now topic content : String) (ru : Bool) :
    (deliberate env now topic content ru).final_decision =
      (if (getAgentOpinion AgentRole.security_guard (env AgentRole.security_guard)).approve then
        (if ru then
          (if (panelRoles.map (fun r => getAgentOpinion r (env r))).countP
              (fun v => v.approve) = 5 then "publish" else "revise")
         else
          (if 2 * (panelRoles.map (fun r => getAgentOpinion r (env r))).countP
              (fun v => v.approve) > 5 then "publish" else "revise"))
       else "revise") := by
  unfold deliberate
  simp only [find_security_vote, List.length_map]
  cases h : (getAgentOpinion AgentRole.security_guard (env AgentRole.security_guard)).approve <;>
    simp [h, panelRoles]

/-- C4 (confirmed).  For every vote set produced by `deliberate`, if the
security-guard vote has `approve = false` the final decision is `revise`,
regardless of `require_unanimous` and of all other votes; the override is
applied after the base counting rule. -/
theorem c4_security_veto_forces_revise (env : AgentRole → KimiResult) (now topic content : String) (ru : Bool)
    (hsec : (getAgentOpinion AgentRole.security_guard
        (env AgentRole.security_guard)).approve = false) :
    (deliberate env now topic content ru).final_decision = "revise" := by
  rw [deliberate_decision_formula, hsec]
  simp

/-- Witness for C4: the 4-approve / 1-reject case where the rejector is the
security guard still yields `revise`. -/
theorem c4_security_veto_witness :
    (deliberate envSecurityRejects "now" "T" "C" false).votes.countP
        (fun v => v.approve) = 4 ∧
    (deliberate envSecurityRejects "now" "T" "C" false).final_decision = "revise" :=
  ⟨by decide, c4_security_veto_forces_revise envSecurityRejects "now" "T" "C" false (by decide)⟩

/-- C5 (confirmed).  Absent a security-guard veto, the decision follows the
base counting rule exactly: with `require_unanimous = true` it is `publish`
iff approvals equal the vote-set size, otherwise `publish` iff approvals
exceed half the vote-set size (`approvals > total / 2` over Python floats
equals `2 * approvals > total` over the integers involved). -/
theorem c5_base_counting_rule (env : AgentRole → KimiResult) (now topic content : String) (ru : Bool)
    (hsec : (getAgentOpinion AgentRole.security_guard
        (env AgentRole.security_guard)).approve = true) :
    (deliberate env now topic content ru).final_decision =
      (if ru then
        (if (deliberate env now topic content ru).votes.countP (fun v => v.approve) =
            (deliberate env now topic content ru).votes.length then "publish" else "revise")
       else
        (if 2 * (deliberate env now topic content ru).votes.countP (fun v => v.approve) >
            (deliberate env now topic content ru).votes.length then "publish" else "revise")) := by
  rw [deliberate_decision_formula, hsec]
  rw [deliberate_votes]
  have hlen : (panelRoles.map (fun r => getAgentOpinion r (env r))).length = 5 := by
    simp [panelRoles]
  rw [hlen]
  simp

/-- Witness for C5: two approvals (including the security guard) out of five
in majority mode yield `revise`. -/
theorem c5_base_rule_witness :
    (deliberate envTwoApprove "now" "T" "C" false).votes.countP
        (fun v => v.approve) = 2 ∧
    (deliberate envTwoApprove "now" "T" "C" false).final_decision = "revise" :=
  ⟨by decide,
   (c5_base_counting_rule envTwoApprove "now" "T" "C" false (by decide)).trans (by decide)⟩

/-- C7 (confirmed).  Every deliberation contains exactly one vote per role of
the fixed five-role panel, in panel order, so the vote set size is always 5;
a reviewer whose call failed or returned an unparseable response is present
as a conservative reject vote, never omitted. -/
theorem c7_full_panel_votes (env : AgentRole → KimiResult) (now topic content : String) (ru : Bool) :
    (deliberate env now topic content ru).votes.map (fun v => v.agent) = panelRoles ∧
    (deliberate env now topic content ru).votes.length = 5 ∧
    (∀ r : AgentRole, responseMalformed (env r) = true →
      ∃ v ∈ (deliberate env now topic content ru).votes,
        v.agent = r ∧ v.approve = false) := by
  refine ⟨?_, ?_, ?_⟩
  · rw [deliberate_votes]
    simp [panelRoles, getAgentOpinion_agent]
  · rw [deliberate_votes]
    simp [panelRoles]
  · intro r hr
    refine ⟨getAgentOpinion r (env r), ?_,
      getAgentOpinion_agent r (env r), (opinion_malformed_reject r (env r) hr).1⟩
    rw [deliberate_votes]
    exact List.mem_map_of_mem _ (by cases r <;> simp [panelRoles])

/-- Witness for C7: with every reviewer call failing, the vote set still has
size 5 and carries a rejecting security-guard vote. -/
theorem c7_full_panel_witness :
    (deliberate envAllErr "now" "T" "C" false).votes.length = 5 ∧
    ∃ v ∈ (deliberate envAllErr "now" "T" "C" false).votes,
      v.agent = AgentRole.security_guard ∧ v.approve = false :=
  ⟨(c7_full_panel_votes envAllErr "now" "T" "C" false).2.1,
   (c7_full_panel_votes envAllErr "now" "T" "C" false).2.2 AgentRole.security_guard (by decide)⟩

/-! ## Claims C2, C3, C6, C9, C8 -/

/-- C2 (code bug).  `deliberate_with_id` discards the row id assigned by its
own insert (`cursor.lastrowid` inside `_save_deliberation`) and instead
recovers "the just-saved id" with `_get_last_deliberation_id`, a
most-recent-row query by topic — despite its own docstring ("Avoids race
condition by returning the ID directly after saving").  In the interleaving
modelled here, session A inserts row 1 for topic `T` at t=10, session B runs
a full `deliberate_with_id` for the same topic at t=11 (inserting row 2 and
returning `some 2`), and the recovery query A then performs — the very query
`deliberate_with_id` uses — returns B's row id 2, not A's row id 1. -/
theorem c2_deliberation_id_requery_race :
    (saveDeliberation emptyCouncilDB 10 "T" "contentA"
        (deliberate envAllErr "t10" "T" "contentA" false) false).2 = 1 ∧
    (deliberateWithId envAllErr "t11" 11
        (saveDeliberation emptyCouncilDB 10 "T" "contentA"
          (deliberate envAllErr "t10" "T" "contentA" false) false).1
        "T" "contentB" false).2.1 = some 2 ∧
    getLastDeliberationId
        (deliberateWithId envAllErr "t11" 11
          (saveDeliberation emptyCouncilDB 10 "T" "contentA"
            (deliberate envAllErr "t10" "T" "contentA" false) false).1
          "T" "contentB" false).2.2 "T" = some 2 := by
  refine ⟨rfl, ?_, ?_⟩ <;> rfl

/-- C3 (code bug).  For every publication row in `approved` status,
`publish` propagates an `AttributeError` instead of returning an error
result: line 239 reads `self.security.council`, and `SecurityMonitor`
(security_monitor.py:60-71) has no `council` attribute, so the final safety
check can never run.  The record keeps its `approved` status (the returned
database is unchanged) and no target delivery is attempted — but the caller
gets a raised exception, not the error result object the claim requires. -/
theorem c3_publish_raises_attribute_error (db : PubDB) (pubId : Nat) (p : Publication)
    (hrow : db.pubs.find? (fun q => q.id == pubId && q.status == "approved") = some p) :
    publish db pubId = (PublishOutcome.raised securityCouncilAttrError, db, []) := by
  unfold publish
  rw [hrow]

/-- Witness for C3: a one-row database with an approved publication. -/
theorem c3_publish_attribute_error_witness :
    publish
      { pubs := [{ id := 1, title := "t", content := "c", category := "insight",
                   status := "approved", deliberationId := some 7,
                   publishTargets := some ["website"] }], log := [] } 1 =
    (PublishOutcome.raised securityCouncilAttrError,
     { pubs := [{ id := 1, title := "t", content := "c", category := "insight",
                  status := "approved", deliberationId := some 7,
                  publishTargets := some ["website"] }], log := [] }, []) :=
  c3_publish_raises_attribute_error _ 1 _ rfl

/-- C6 (confirmed).  `screen_finding` implements the priority decision
table: zero risk flags with at least two routine-keyword matches
auto-approves; three or more flags need review with a reason naming the
first three; one or two flags need review with a reason naming the first;
otherwise auto-approve.  (The four cases are mutually exclusive, so the
priority order is captured exactly.) -/
theorem c6_screening_decision_table (topic content : String) :
    ((riskFlagsOf topic content).length = 0 ∧ routineCount topic content ≥ 2 →
      (screenFinding topic content).auto_decision = "auto_approve") ∧
    ((riskFlagsOf topic content).length ≥ 3 →
      (screenFinding topic content).auto_decision = "needs_review" ∧
      (screenFinding topic content).reason =
        "Multiple risk flags detected: " ++
          String.intercalate ", " ((riskFlagsOf topic content).take 3)) ∧
    (1 ≤ (riskFlagsOf topic content).length ∧ (riskFlagsOf topic content).length ≤ 2 →
      (screenFinding topic content).auto_decision = "needs_review" ∧
      (screenFinding topic content).reason =
        "Potential sensitive content: " ++ (riskFlagsOf topic content).headD "") ∧
    ((riskFlagsOf topic content).length = 0 ∧ routineCount topic content < 2 →
      (screenFinding topic content).auto_decision = "auto_approve") := by
  simp only [screenFinding]
  split_ifs with h1 h2 h3
  · exact ⟨fun _ => rfl, fun h => by exfalso; omega,
      fun h => by exfalso; omega, fun _ => rfl⟩
  · exact ⟨fun h => absurd h h1, fun _ => ⟨rfl, rfl⟩,
      fun h => by exfalso; omega, fun h => by exfalso; omega⟩
  · exact ⟨fun h => absurd h h1, fun h => by exfalso; omega,
      fun _ => ⟨rfl, rfl⟩, fun h => by exfalso; omega⟩
  · exact ⟨fun h => absurd h h1, fun h => by exfalso; omega,
      fun h => by exfalso; omega, fun _ => rfl⟩

/-- Witness for C6: three keyword flags route the submission to review. -/
theorem c6_screening_table_witness :
    (riskFlagsOf "t" "war attack proof").length ≥ 3 ∧
    (screenFinding "t" "war attack proof").auto_decision = "needs_review" :=
  ⟨by decide, (((c6_screening_decision_table "t" "war attack proof").2.1) (by decide)).1⟩

/-- C9 (confirmed).  Whenever the content contains more than two
agent-mention pattern matches (`@name`, or a quoted capitalized name followed
by said/wrote/posted/claimed), `screen_finding` adds the risk flag
`agent_mentions:<count>` and the submission is routed to full review even if
no risk keyword matched. -/
theorem c9_agent_mentions_flag (topic content : String) (h : agentMentionCount content > 2) :
    ("agent_mentions:" ++ toString (agentMentionCount content)) ∈ riskFlagsOf topic content ∧
    (screenFinding topic content).needs_council = true ∧
    (screenFinding topic content).auto_decision = "needs_review" := by
  have hmem : ("agent_mentions:" ++ toString (agentMentionCount content)) ∈
      riskFlagsOf topic content := by
    simp only [riskFlagsOf]
    rw [if_pos h]
    split_ifs <;> simp [List.mem_append]
  have hpos : 0 < (riskFlagsOf topic content).length := List.length_pos_of_mem hmem
  refine ⟨hmem, ?_, ?_⟩ <;>
    (simp only [screenFinding]; split_ifs with h1 h2 h3 <;> first | rfl | (exfalso; omega))

/-- Witness for C9: three `@name` tokens and no risk keyword still trigger
review, with `agent_mentions:3` the only flag. -/
theorem c9_agent_mentions_witness :
    agentMentionCount "@aa @bb @cc zz" > 2 ∧
    riskFlagsOf "zz" "@aa @bb @cc zz" = ["agent_mentions:3"] ∧
    (screenFinding "zz" "@aa @bb @cc zz").auto_decision = "needs_review" :=
  ⟨by decide, by decide, (c9_agent_mentions_flag "zz" "@aa @bb @cc zz" (by decide)).2.2⟩

/-- Splitting a step sequence splits the filesystem fold. -/
theorem runWriteSteps_append (fs : SiteFS) (l1 l2 : List WriteStep) :
    runWriteSteps fs (l1 ++ l2) = runWriteSteps (runWriteSteps fs l1) l2 :=
  List.foldl_append _ _ _ _

/-- Streaming chunks into an existing temporary file appends their
concatenation to it and never touches the visible document. -/
theorem writeChunks_run (d : Option String) (t : String) (cs : List String) :
    runWriteSteps ⟨d, some t⟩ (cs.map WriteStep.writeChunk) =
      ⟨d, some (t ++ concatAll cs)⟩ := by
  induction cs generalizing t with
  | nil => simp [runWriteSteps, concatAll, String.append_empty]
  | cons c cs ih =>
    have h1 : runWriteSteps ⟨d, some t⟩ ((c :: cs).map WriteStep.writeChunk) =
        runWriteSteps ⟨d, some (t ++ c)⟩ (cs.map WriteStep.writeChunk) := rfl
    rw [h1, ih (t ++ c)]
    simp [concatAll, String.append_assoc]

/-- Crash analysis of the chunk writes followed by the rename: at every
prefix of the remaining steps the visible document is either untouched or
holds the full rename payload. -/
theorem writeSteps_take_doc (cs : List String) (d : Option String) (t : String) (j : Nat) :
    (runWriteSteps ⟨d, some t⟩
        ((cs.map WriteStep.writeChunk ++ [WriteStep.renameTempToDoc]).take j)).doc = d ∨
    (runWriteSteps ⟨d, some t⟩
        ((cs.map WriteStep.writeChunk ++ [WriteStep.renameTempToDoc]).take j)).doc =
      some (t ++ concatAll cs) := by
  induction cs generalizing t j with
  | nil =>
    cases j with
    | zero => exact Or.inl rfl
    | succ j2 =>
      right
      simp [runWriteSteps, applyWriteStep, concatAll, String.append_empty, List.take]
  | cons c cs ih =>
    cases j with
    | zero => exact Or.inl rfl
    | succ j2 =>
      have h := ih (t ++ c) j2
      simpa [runWriteSteps, applyWriteStep, concatAll, String.append_assoc] using h

/-- C8 (confirmed).  `_publish_to_website` writes the full serialized
discoveries document to a temporary file in the same directory and renames
it into place: a crash after any number of primitive steps leaves the
visible document either at its pre-write contents or at the full post-write
contents, never a truncated hybrid; the completed write installs exactly the
new contents; and on a write failure the temporary file is removed with the
original document unchanged. -/
theorem c8_website_write_atomic (docPre : Option String) (pubId : Nat)
    (date title content category : String) (oldEntries : List JValue)
    (chunks : List String)
    (hchunks : concatAll chunks = websiteNewContents pubId date title content category oldEntries) :
    (∀ k : Nat,
      (runWriteSteps ⟨docPre, none⟩ ((websiteWriteSteps chunks).take k)).doc = docPre ∨
      (runWriteSteps ⟨docPre, none⟩ ((websiteWriteSteps chunks).take k)).doc =
        some (websiteNewContents pubId date title content category oldEntries)) ∧
    runWriteSteps ⟨docPre, none⟩ (websiteWriteSteps chunks) =
      ⟨some (websiteNewContents pubId date title content category oldEntries), none⟩ ∧
    (∀ written : List String,
      websiteWriteFailCleanup ⟨docPre, none⟩ written = ⟨docPre, none⟩) := by
  refine ⟨?_, ?_, ?_⟩
  · intro k
    cases k with
    | zero => exact Or.inl rfl
    | succ j =>
      have h1 : runWriteSteps ⟨docPre, none⟩ ((websiteWriteSteps chunks).take (j + 1)) =
          runWriteSteps ⟨docPre, some ""⟩
            ((chunks.map WriteStep.writeChunk ++ [WriteStep.renameTempToDoc]).take j) := rfl
      rw [h1]
      have h2 := writeSteps_take_doc chunks docPre "" j
      rw [String.empty_append, hchunks] at h2
      exact h2
  · have h1 : runWriteSteps ⟨docPre, none⟩ (websiteWriteSteps chunks) =
        runWriteSteps ⟨docPre, some ""⟩
          (chunks.map WriteStep.writeChunk ++ [WriteStep.renameTempToDoc]) := rfl
    rw [h1, runWriteSteps_append, writeChunks_run]
    simp [runWriteSteps, applyWriteStep, String.empty_append, hchunks]
  · intro written
    unfold websiteWriteFailCleanup
    have h1 : runWriteSteps ⟨docPre, none⟩
        (WriteStep.createTemp :: written.map WriteStep.writeChunk) =
        runWriteSteps ⟨docPre, some ""⟩ (written.map WriteStep.writeChunk) := rfl
    rw [h1, writeChunks_run]

/-- Witness for C8: a single-chunk write crashed after two steps leaves the
old or the new document. -/
theorem c8_atomic_write_witness :
    (runWriteSteps ⟨some "old", none⟩
        ((websiteWriteSteps [websiteNewContents 1 "2026-02-03" "Title" "Body" "insight" []]).take 2)).doc =
      some "old" ∨
    (runWriteSteps ⟨some "old", none⟩
        ((websiteWriteSteps [websiteNewContents 1 "2026-02-03" "Title" "Body" "insight" []]).take 2)).doc =
      some (websiteNewContents 1 "2026-02-03" "Title" "Body" "insight" []) :=
  (c8_website_write_atomic (some "old") 1 "2026-02-03" "Title" "Body" "insight" []
    [websiteNewContents 1 "2026-02-03" "Title" "Body" "insight" []]
    (by simp [concatAll, String.append_empty])).1 2
